import Mathlib

/-!
Verification of the pollutant-to-risk scoring engine of the air-quality
dashboard (src/app7.py). Python floats are embedded as exact rationals
and the Python `int(...)` conversion (truncation toward zero) as `pyInt`.
All definitions below are transcribed from the source file; names follow
the source where Lean allows it.
-/

/-- Python `int(x)` on a real value: truncation toward zero. -/
def pyInt (q : ℚ) : ℤ := if q < 0 then ⌈q⌉ else ⌊q⌋

namespace SmartCitiesModule

/-- Transcription of `SmartCitiesModule.calculate_aqi` (src/app7.py lines 281-287). -/
def calculate_aqi (pm25 : ℚ) : ℤ :=
  if pm25 ≤ 12 then pyInt ((50 / 12) * pm25)
  else if pm25 ≤ 35.4 then pyInt (50 + ((100 - 50) / (35.4 - 12.1)) * (pm25 - 12.1))
  else if pm25 ≤ 55.4 then pyInt (100 + ((150 - 100) / (55.4 - 35.5)) * (pm25 - 35.5))
  else if pm25 ≤ 150.4 then pyInt (150 + ((200 - 150) / (150.4 - 55.5)) * (pm25 - 55.5))
  else min 300 (pyInt (200 + ((300 - 200) / (250.4 - 150.5)) * (pm25 - 150.5)))

end SmartCitiesModule

namespace TravelEcoTourismModule

/-- Transcription of `TravelEcoTourismModule.calculate_aqi` (src/app7.py lines 490-496). -/
def calculate_aqi (pm25 : ℚ) : ℤ :=
  if pm25 ≤ 12 then pyInt ((50 / 12) * pm25)
  else if pm25 ≤ 35.4 then pyInt (50 + ((100 - 50) / (35.4 - 12.1)) * (pm25 - 12.1))
  else if pm25 ≤ 55.4 then pyInt (100 + ((150 - 100) / (55.4 - 35.5)) * (pm25 - 35.5))
  else if pm25 ≤ 150.4 then pyInt (150 + ((200 - 150) / (150.4 - 55.5)) * (pm25 - 55.5))
  else min 300 (pyInt (200 + ((300 - 200) / (250.4 - 150.5)) * (pm25 - 150.5)))

end TravelEcoTourismModule

namespace RealEstateUrbanPlanningModule

/-- Transcription of `RealEstateUrbanPlanningModule.calculate_aqi` (src/app7.py lines 571-577). -/
def calculate_aqi (pm25 : ℚ) : ℤ :=
  if pm25 ≤ 12 then pyInt ((50 / 12) * pm25)
  else if pm25 ≤ 35.4 then pyInt (50 + ((100 - 50) / (35.4 - 12.1)) * (pm25 - 12.1))
  else if pm25 ≤ 55.4 then pyInt (100 + ((150 - 100) / (55.4 - 35.5)) * (pm25 - 35.5))
  else if pm25 ≤ 150.4 then pyInt (150 + ((200 - 150) / (150.4 - 55.5)) * (pm25 - 55.5))
  else min 300 (pyInt (200 + ((300 - 200) / (250.4 - 150.5)) * (pm25 - 150.5)))

end RealEstateUrbanPlanningModule

lemma pyInt_eq_floor {q : ℚ} (h : 0 ≤ q) : pyInt q = ⌊q⌋ := by
  unfold pyInt
  rw [if_neg (not_lt.mpr h)]

lemma le_pyInt {n : ℤ} {q : ℚ} (h0 : 0 ≤ q) (h : (n : ℚ) ≤ q) : n ≤ pyInt q := by
  rw [pyInt_eq_floor h0]
  exact Int.le_floor.mpr h

lemma pyInt_le {n : ℤ} {q : ℚ} (h0 : 0 ≤ q) (h : q < (n : ℚ) + 1) : pyInt q ≤ n := by
  rw [pyInt_eq_floor h0]
  have hlt : ⌊q⌋ < n + 1 := Int.floor_lt.mpr (by push_cast; exact h)
  omega

lemma pyInt_mono {a b : ℚ} (h0 : 0 ≤ a) (hab : a ≤ b) : pyInt a ≤ pyInt b := by
  rw [pyInt_eq_floor h0, pyInt_eq_floor (h0.trans hab)]
  exact Int.floor_mono hab

namespace SmartCitiesModule

lemma aqi_eq_b1 {x : ℚ} (h : x ≤ 12) :
    calculate_aqi x = pyInt (50 / 12 * x) := by
  unfold calculate_aqi
  rw [if_pos h]

lemma aqi_eq_b2 {x : ℚ} (h1 : ¬ x ≤ 12) (h2 : x ≤ 35.4) :
    calculate_aqi x = pyInt (50 + (100 - 50) / (35.4 - 12.1) * (x - 12.1)) := by
  unfold calculate_aqi
  rw [if_neg h1, if_pos h2]

lemma aqi_eq_b3 {x : ℚ} (h1 : ¬ x ≤ 12) (h2 : ¬ x ≤ 35.4) (h3 : x ≤ 55.4) :
    calculate_aqi x = pyInt (100 + (150 - 100) / (55.4 - 35.5) * (x - 35.5)) := by
  unfold calculate_aqi
  rw [if_neg h1, if_neg h2, if_pos h3]

lemma aqi_eq_b4 {x : ℚ} (h1 : ¬ x ≤ 12) (h2 : ¬ x ≤ 35.4) (h3 : ¬ x ≤ 55.4)
    (h4 : x ≤ 150.4) :
    calculate_aqi x = pyInt (150 + (200 - 150) / (150.4 - 55.5) * (x - 55.5)) := by
  unfold calculate_aqi
  rw [if_neg h1, if_neg h2, if_neg h3, if_pos h4]

lemma aqi_eq_b5 {x : ℚ} (h1 : ¬ x ≤ 12) (h2 : ¬ x ≤ 35.4) (h3 : ¬ x ≤ 55.4)
    (h4 : ¬ x ≤ 150.4) :
    calculate_aqi x = min 300 (pyInt (200 + (300 - 200) / (250.4 - 150.5) * (x - 150.5))) := by
  unfold calculate_aqi
  rw [if_neg h1, if_neg h2, if_neg h3, if_neg h4]

lemma aqi_range_b1 {x : ℚ} (h0 : 0 ≤ x) (h : x ≤ 12) :
    0 ≤ calculate_aqi x ∧ calculate_aqi x ≤ 50 := by
  rw [aqi_eq_b1 h]
  constructor
  · exact le_pyInt (by linarith) (by push_cast; linarith)
  · exact pyInt_le (by linarith) (by push_cast; linarith)

lemma aqi_range_b2 {x : ℚ} (h1 : 12.1 ≤ x) (h2 : x ≤ 35.4) :
    50 ≤ calculate_aqi x ∧ calculate_aqi x ≤ 100 := by
  rw [aqi_eq_b2 (by linarith) h2]
  constructor
  · exact le_pyInt (by linarith) (by push_cast; linarith)
  · exact pyInt_le (by linarith) (by push_cast; linarith)

lemma aqi_range_b3 {x : ℚ} (h1 : 35.5 ≤ x) (h2 : x ≤ 55.4) :
    100 ≤ calculate_aqi x ∧ calculate_aqi x ≤ 150 := by
  rw [aqi_eq_b3 (by linarith) (by linarith) h2]
  constructor
  · exact le_pyInt (by linarith) (by push_cast; linarith)
  · exact pyInt_le (by linarith) (by push_cast; linarith)

lemma aqi_range_b4 {x : ℚ} (h1 : 55.5 ≤ x) (h2 : x ≤ 150.4) :
    150 ≤ calculate_aqi x ∧ calculate_aqi x ≤ 200 := by
  rw [aqi_eq_b4 (by linarith) (by linarith) (by linarith) h2]
  constructor
  · exact le_pyInt (by linarith) (by push_cast; linarith)
  · exact pyInt_le (by linarith) (by push_cast; linarith)

lemma aqi_range_b5 {x : ℚ} (h1 : 150.5 ≤ x) :
    200 ≤ calculate_aqi x ∧ calculate_aqi x ≤ 300 := by
  rw [aqi_eq_b5 (by linarith) (by linarith) (by linarith) (by linarith)]
  constructor
  · exact le_min (by norm_num) (le_pyInt (by linarith) (by push_cast; linarith))
  · exact min_le_left _ _

lemma aqi_mono_b1 {a b : ℚ} (h0 : 0 ≤ a) (hab : a ≤ b) (hb : b ≤ 12) :
    calculate_aqi a ≤ calculate_aqi b := by
  rw [aqi_eq_b1 (hab.trans hb), aqi_eq_b1 hb]
  exact pyInt_mono (by linarith) (by linarith)

lemma aqi_mono_b2 {a b : ℚ} (ha : 12.1 ≤ a) (hab : a ≤ b) (hb : b ≤ 35.4) :
    calculate_aqi a ≤ calculate_aqi b := by
  rw [aqi_eq_b2 (by linarith) (hab.trans hb), aqi_eq_b2 (by linarith) hb]
  exact pyInt_mono (by linarith) (by linarith)

lemma aqi_mono_b3 {a b : ℚ} (ha : 35.5 ≤ a) (hab : a ≤ b) (hb : b ≤ 55.4) :
    calculate_aqi a ≤ calculate_aqi b := by
  rw [aqi_eq_b3 (by linarith) (by linarith) (hab.trans hb),
    aqi_eq_b3 (by linarith) (by linarith) hb]
  exact pyInt_mono (by linarith) (by linarith)

lemma aqi_mono_b4 {a b : ℚ} (ha : 55.5 ≤ a) (hab : a ≤ b) (hb : b ≤ 150.4) :
    calculate_aqi a ≤ calculate_aqi b := by
  rw [aqi_eq_b4 (by linarith) (by linarith) (by linarith) (hab.trans hb),
    aqi_eq_b4 (by linarith) (by linarith) (by linarith) hb]
  exact pyInt_mono (by linarith) (by linarith)

lemma aqi_mono_b5 {a b : ℚ} (ha : 150.5 ≤ a) (hab : a ≤ b) :
    calculate_aqi a ≤ calculate_aqi b := by
  rw [aqi_eq_b5 (by linarith) (by linarith) (by linarith) (by linarith),
    aqi_eq_b5 (by linarith) (by linarith) (by linarith) (by linarith)]
  exact min_le_min (le_refl _) (pyInt_mono (by linarith) (by linarith))

/-- The AQI converter stays within the breakpoint ranges of the table: the
input lies in one of the closed PM2.5 breakpoint intervals of the table,
excluding the gaps between a branch upper bound and the next branch anchor. -/
def InRange (x : ℚ) : Prop :=
  x ≤ 12 ∨ (12.1 ≤ x ∧ x ≤ 35.4) ∨ (35.5 ≤ x ∧ x ≤ 55.4) ∨
    (55.5 ≤ x ∧ x ≤ 150.4) ∨ 150.5 ≤ x

lemma aqi_bounds {x : ℚ} (h0 : 0 ≤ x) :
    0 ≤ calculate_aqi x ∧ calculate_aqi x ≤ 300 := by
  by_cases h1 : x ≤ 12
  · obtain ⟨l, r⟩ := aqi_range_b1 h0 h1
    exact ⟨l, by omega⟩
  by_cases h2 : x ≤ 35.4
  · rw [not_le] at h1
    rw [aqi_eq_b2 (by linarith) h2]
    refine ⟨le_pyInt (by linarith) (by push_cast; linarith), ?_⟩
    exact (pyInt_le (by linarith) (by push_cast; linarith) : pyInt _ ≤ 100).trans (by norm_num)
  by_cases h3 : x ≤ 55.4
  · rw [not_le] at h1 h2
    rw [aqi_eq_b3 (by linarith) (by linarith) h3]
    refine ⟨le_pyInt (by linarith) (by push_cast; linarith), ?_⟩
    exact (pyInt_le (by linarith) (by push_cast; linarith) : pyInt _ ≤ 150).trans (by norm_num)
  by_cases h4 : x ≤ 150.4
  · rw [not_le] at h1 h2 h3
    rw [aqi_eq_b4 (by linarith) (by linarith) (by linarith) h4]
    refine ⟨le_pyInt (by linarith) (by push_cast; linarith), ?_⟩
    exact (pyInt_le (by linarith) (by push_cast; linarith) : pyInt _ ≤ 200).trans (by norm_num)
  · rw [not_le] at h1 h2 h3 h4
    rw [aqi_eq_b5 (by linarith) (by linarith) (by linarith) (by linarith)]
    exact ⟨le_min (by norm_num) (le_pyInt (by linarith) (by push_cast; linarith)),
      min_le_left _ _⟩

end SmartCitiesModule

lemma travel_aqi_eq_smart (p : ℚ) :
    TravelEcoTourismModule.calculate_aqi p = SmartCitiesModule.calculate_aqi p := rfl

lemma realestate_aqi_eq_smart (p : ℚ) :
    RealEstateUrbanPlanningModule.calculate_aqi p = SmartCitiesModule.calculate_aqi p := rfl

/-- C1 counterexample: the AQI converter is not monotone on the pair
(12, 12.05): `calculate_aqi 12 = 50` but `calculate_aqi 12.05 = 49`,
because the second branch anchors at 12.1 while the first branch ends at 12. -/
theorem c1_aqi_not_monotone_counterexample :
    (0 : ℚ) ≤ 12 ∧ (12 : ℚ) ≤ 12.05 ∧
      ¬ SmartCitiesModule.calculate_aqi 12 ≤ SmartCitiesModule.calculate_aqi 12.05 := by
  refine ⟨by norm_num, by norm_num, ?_⟩
  have h1 : SmartCitiesModule.calculate_aqi 12 = 50 := by
    norm_num [SmartCitiesModule.calculate_aqi, pyInt]
  have h2 : SmartCitiesModule.calculate_aqi 12.05 = 49 := by
    norm_num [SmartCitiesModule.calculate_aqi, pyInt]
  omega

/-- C1 (amended): the AQI converter is monotonically non-decreasing on all
inputs lying inside the breakpoint table ranges, i.e. excluding the gap
intervals (12, 12.1), (35.4, 35.5), (55.4, 55.5) and (150.4, 150.5) between
a branch upper bound and the next branch lower anchor: for every pair of
PM2.5 inputs a and b with 0 ≤ a ≤ b both in range,
calculate_aqi a ≤ calculate_aqi b. -/
theorem c1_aqi_monotone_on_breakpoint_ranges :
    ∀ a b : ℚ, 0 ≤ a → a ≤ b → SmartCitiesModule.InRange a →
      SmartCitiesModule.InRange b →
      SmartCitiesModule.calculate_aqi a ≤ SmartCitiesModule.calculate_aqi b := by
  intro a b h0 hab ha hb
  rcases ha with ha | ⟨ha1, ha2⟩ | ⟨ha1, ha2⟩ | ⟨ha1, ha2⟩ | ha <;>
    rcases hb with hb | ⟨hb1, hb2⟩ | ⟨hb1, hb2⟩ | ⟨hb1, hb2⟩ | hb
  case _ =>
    exact SmartCitiesModule.aqi_mono_b1 h0 hab hb
  case _ =>
    exact le_trans (SmartCitiesModule.aqi_range_b1 h0 ha).2
      (SmartCitiesModule.aqi_range_b2 hb1 hb2).1
  case _ =>
    exact le_trans (SmartCitiesModule.aqi_range_b1 h0 ha).2
      (le_trans (show (50:ℤ) ≤ 100 by norm_num) (SmartCitiesModule.aqi_range_b3 hb1 hb2).1)
  case _ =>
    exact le_trans (SmartCitiesModule.aqi_range_b1 h0 ha).2
      (le_trans (show (50:ℤ) ≤ 150 by norm_num) (SmartCitiesModule.aqi_range_b4 hb1 hb2).1)
  case _ =>
    exact le_trans (SmartCitiesModule.aqi_range_b1 h0 ha).2
      (le_trans (show (50:ℤ) ≤ 200 by norm_num) (SmartCitiesModule.aqi_range_b5 hb).1)
  case _ =>
    linarith
  case _ =>
    exact SmartCitiesModule.aqi_mono_b2 ha1 hab hb2
  case _ =>
    exact le_trans (SmartCitiesModule.aqi_range_b2 ha1 ha2).2
      (SmartCitiesModule.aqi_range_b3 hb1 hb2).1
  case _ =>
    exact le_trans (SmartCitiesModule.aqi_range_b2 ha1 ha2).2
      (le_trans (show (100:ℤ) ≤ 150 by norm_num) (SmartCitiesModule.aqi_range_b4 hb1 hb2).1)
  case _ =>
    exact le_trans (SmartCitiesModule.aqi_range_b2 ha1 ha2).2
      (le_trans (show (100:ℤ) ≤ 200 by norm_num) (SmartCitiesModule.aqi_range_b5 hb).1)
  case _ =>
    linarith
  case _ =>
    linarith
  case _ =>
    exact SmartCitiesModule.aqi_mono_b3 ha1 hab hb2
  case _ =>
    exact le_trans (SmartCitiesModule.aqi_range_b3 ha1 ha2).2
      (SmartCitiesModule.aqi_range_b4 hb1 hb2).1
  case _ =>
    exact le_trans (SmartCitiesModule.aqi_range_b3 ha1 ha2).2
      (le_trans (show (150:ℤ) ≤ 200 by norm_num) (SmartCitiesModule.aqi_range_b5 hb).1)
  case _ =>
    linarith
  case _ =>
    linarith
  case _ =>
    linarith
  case _ =>
    exact SmartCitiesModule.aqi_mono_b4 ha1 hab hb2
  case _ =>
    exact le_trans (SmartCitiesModule.aqi_range_b4 ha1 ha2).2
      (SmartCitiesModule.aqi_range_b5 hb).1
  case _ =>
    linarith
  case _ =>
    linarith
  case _ =>
    linarith
  case _ =>
    linarith
  case _ =>
    exact SmartCitiesModule.aqi_mono_b5 ha hab

/-- C1 witness: the amended monotonicity theorem applied at the in-range pair
(11, 13). -/
theorem c1_aqi_monotone_witness :
    (0 : ℚ) ≤ 11 ∧ (11 : ℚ) ≤ 13 ∧ SmartCitiesModule.InRange 11 ∧
      SmartCitiesModule.InRange 13 ∧
      SmartCitiesModule.calculate_aqi 11 ≤ SmartCitiesModule.calculate_aqi 13 := by
  refine ⟨by norm_num, by norm_num, Or.inl (by norm_num),
    Or.inr (Or.inl ⟨by norm_num, by norm_num⟩), ?_⟩
  exact c1_aqi_monotone_on_breakpoint_ranges 11 13 (by norm_num) (by norm_num)
    (Or.inl (by norm_num)) (Or.inr (Or.inl ⟨by norm_num, by norm_num⟩))

/-- C3: AQI converter boundary values: aqi(0)=0, aqi(12)=50, aqi(35.4)=100,
aqi(55.4)=150, aqi(150.4)=200, aqi(300)=300, and every input above the top
breakpoint 250.4 yields exactly 300. -/
theorem c3_aqi_boundary_values :
    SmartCitiesModule.calculate_aqi 0 = 0 ∧
      SmartCitiesModule.calculate_aqi 12 = 50 ∧
      SmartCitiesModule.calculate_aqi 35.4 = 100 ∧
      SmartCitiesModule.calculate_aqi 55.4 = 150 ∧
      SmartCitiesModule.calculate_aqi 150.4 = 200 ∧
      SmartCitiesModule.calculate_aqi 300 = 300 ∧
      ∀ x : ℚ, 250.4 < x → SmartCitiesModule.calculate_aqi x = 300 := by
  refine ⟨by norm_num [SmartCitiesModule.calculate_aqi, pyInt],
    by norm_num [SmartCitiesModule.calculate_aqi, pyInt],
    by norm_num [SmartCitiesModule.calculate_aqi, pyInt],
    by norm_num [SmartCitiesModule.calculate_aqi, pyInt],
    by norm_num [SmartCitiesModule.calculate_aqi, pyInt],
    by norm_num [SmartCitiesModule.calculate_aqi, pyInt], ?_⟩
  intro x hx
  rw [SmartCitiesModule.aqi_eq_b5 (by linarith) (by linarith) (by linarith) (by linarith)]
  have h300 : (300 : ℤ) ≤ pyInt (200 + (300 - 200) / (250.4 - 150.5) * (x - 150.5)) :=
    le_pyInt (by linarith) (by push_cast; linarith)
  exact min_eq_left h300

/-- C3 witness: the clamping clause of the boundary-value theorem applied at
the concrete input 251. -/
theorem c3_aqi_boundary_witness :
    (250.4 : ℚ) < 251 ∧ SmartCitiesModule.calculate_aqi 251 = 300 :=
  ⟨by norm_num, c3_aqi_boundary_values.2.2.2.2.2.2 251 (by norm_num)⟩

/-- C10: the three textually duplicated AQI converters of the smart-cities,
travel and real-estate modules are extensionally equal. -/
theorem c10_aqi_copies_extensionally_equal :
    ∀ pm25 : ℚ,
      SmartCitiesModule.calculate_aqi pm25 = TravelEcoTourismModule.calculate_aqi pm25 ∧
        TravelEcoTourismModule.calculate_aqi pm25 =
          RealEstateUrbanPlanningModule.calculate_aqi pm25 :=
  fun _ => ⟨rfl, rfl⟩

/-!
Upstream payload shapes consumed by the scoring functions. The weather
provider returns either nothing (network failure, modelled as `none`) or a
JSON object whose `current` section may be absent; inside `current` the
`air_quality` object may be absent, and each pollutant field inside it may
be absent (read with `.get(key, 0)` in the source).
-/

/-- The `air_quality` object of a payload; every pollutant field is optional. -/
structure AirQuality where
  pm2_5 : Option ℚ
  pm10 : Option ℚ
  o3 : Option ℚ
  no2 : Option ℚ
  so2 : Option ℚ
  co : Option ℚ
deriving DecidableEq

/-- Python `str.lower()`, modelled as a per-character lowercase map. -/
def pyLower (s : String) : String := ⟨s.data.map Char.toLower⟩

/-- The empty dict default used by `current.get(air_quality, {})`. -/
def AirQuality.empty : AirQuality := ⟨none, none, none, none, none, none⟩

/-- Non-negative pollutant concentrations in a reading (absent fields read as 0). -/
def AirQuality.Nonneg (aq : AirQuality) : Prop :=
  0 ≤ aq.pm2_5.getD 0 ∧ 0 ≤ aq.pm10.getD 0 ∧ 0 ≤ aq.o3.getD 0 ∧
    0 ≤ aq.no2.getD 0 ∧ 0 ≤ aq.so2.getD 0 ∧ 0 ≤ aq.co.getD 0

/-- The `current` section of a payload. -/
structure Current where
  air_quality : Option AirQuality
deriving DecidableEq

/-- Opaque location object of a payload: the core never computes with it. -/
abbrev Loc := String

/-- A fetched current-conditions payload; the `current` section may be absent. -/
structure Payload where
  current : Option Current
  location : Loc
deriving DecidableEq

namespace AgricultureModule

/-- A crop sensitivity profile: coefficient per pollutant
(src/app7.py lines 130-136). -/
structure CropProfile where
  o3 : ℚ
  so2 : ℚ
  no2 : ℚ
  pm25 : ℚ
deriving DecidableEq

/-- The wheat sensitivity profile, also the lookup fallback. -/
def wheatProfile : CropProfile := ⟨0.12, 0.08, 0.05, 0.10⟩

/-- `self.crop_sensitivity.get(key, self.crop_sensitivity[wheat])`
(src/app7.py line 145). -/
def cropSensitivityGet (key : String) : CropProfile :=
  if key = "wheat" then wheatProfile
  else if key = "rice" then ⟨0.05, 0.03, 0.02, 0.04⟩
  else if key = "corn" then ⟨0.15, 0.10, 0.07, 0.12⟩
  else if key = "soybean" then ⟨0.18, 0.12, 0.08, 0.14⟩
  else if key = "cotton" then ⟨0.10, 0.06, 0.04, 0.08⟩
  else wheatProfile

/-- Risk level ladder of the agriculture module (src/app7.py lines 181-186). -/
def get_risk_level (impact : ℚ) : String :=
  if impact < 2 then "Low"
  else if impact < 5 then "Moderate"
  else if impact < 10 then "High"
  else "Critical"

/-- Per-pollutant contribution of the agriculture loop body
(src/app7.py lines 150-166): the raw value is normalized against the
domain denominator, clipped at 3.0, then scaled by the coefficient and 100. -/
def agriContribution (coefficient den value : ℚ) : ℚ :=
  coefficient * min (value / den) 3 * 100

/-- Per-pollutant entry of the returned `pollutant_impacts` dict. -/
structure PollutantImpact where
  value : ℚ
  impact_percent : ℚ
  risk_level : String
deriving DecidableEq

/-- Result record of `predict_crop_impact`. -/
structure CropImpact where
  total_yield_loss : ℚ
  impact_o3 : PollutantImpact
  impact_so2 : PollutantImpact
  impact_no2 : PollutantImpact
  impact_pm25 : PollutantImpact
  air_quality_data : AirQuality
  location_data : Loc
deriving DecidableEq

/-- Transcription of `AgricultureModule.predict_crop_impact`
(src/app7.py lines 138-179), with the fetched payload passed explicitly. -/
def predict_crop_impact (air_data : Option Payload) (crop_type : String) :
    Option CropImpact :=
  match air_data with
  | none => none
  | some ad =>
    match ad.current with
    | none => none
    | some cur =>
      let air_quality := cur.air_quality.getD AirQuality.empty
      let sensitivity := cropSensitivityGet (pyLower crop_type)
      let vO3 := air_quality.o3.getD 0
      let vSo2 := air_quality.so2.getD 0
      let vNo2 := air_quality.no2.getD 0
      let vPm := air_quality.pm2_5.getD 0
      let iO3 := agriContribution sensitivity.o3 100 vO3
      let iSo2 := agriContribution sensitivity.so2 20 vSo2
      let iNo2 := agriContribution sensitivity.no2 40 vNo2
      let iPm := agriContribution sensitivity.pm25 15 vPm
      let yield_loss := iO3 + iSo2 + iNo2 + iPm
      some
        { total_yield_loss := min yield_loss 50
          impact_o3 := ⟨vO3, iO3, get_risk_level iO3⟩
          impact_so2 := ⟨vSo2, iSo2, get_risk_level iSo2⟩
          impact_no2 := ⟨vNo2, iNo2, get_risk_level iNo2⟩
          impact_pm25 := ⟨vPm, iPm, get_risk_level iPm⟩
          air_quality_data := air_quality
          location_data := ad.location }

lemma cropProfile_nonneg (key : String) :
    0 ≤ (cropSensitivityGet key).o3 ∧ 0 ≤ (cropSensitivityGet key).so2 ∧
      0 ≤ (cropSensitivityGet key).no2 ∧ 0 ≤ (cropSensitivityGet key).pm25 := by
  unfold cropSensitivityGet wheatProfile
  split
  · norm_num
  · split
    · norm_num
    · split
      · norm_num
      · split
        · norm_num
        · split <;> norm_num

lemma agriContribution_nonneg {coefficient den value : ℚ} (hc : 0 ≤ coefficient)
    (hd : 0 < den) (hv : 0 ≤ value) : 0 ≤ agriContribution coefficient den value := by
  unfold agriContribution
  have h1 : 0 ≤ value / den := div_nonneg hv hd.le
  have h2 : 0 ≤ min (value / den) 3 := le_min h1 (by norm_num)
  positivity

end AgricultureModule

namespace HealthcareModule

/-- A health risk profile: multiplier per pollutant (src/app7.py lines 311-317). -/
structure HealthProfile where
  pm25 : ℚ
  o3 : ℚ
  no2 : ℚ
  so2 : ℚ
deriving DecidableEq

def childProfile : HealthProfile := ⟨1.5, 1.3, 1.2, 1.4⟩

def adultProfile : HealthProfile := ⟨1.0, 1.0, 1.0, 1.0⟩

def elderlyProfile : HealthProfile := ⟨1.8, 1.6, 1.4, 1.7⟩

def asthmaProfile : HealthProfile := ⟨2.2, 2.0, 1.8, 2.1⟩

def heartDiseaseProfile : HealthProfile := ⟨2.0, 1.7, 1.5, 1.8⟩

/-- `self.risk_profiles.get(age_group, self.risk_profiles[adult])`
(src/app7.py line 328). -/
def riskProfilesGet (key : String) : HealthProfile :=
  if key = "child" then childProfile
  else if key = "adult" then adultProfile
  else if key = "elderly" then elderlyProfile
  else if key = "asthma" then asthmaProfile
  else if key = "heart_disease" then heartDiseaseProfile
  else adultProfile

/-- Profile selection of `assess_health_risk` (src/app7.py lines 326-328):
flagged conditions override the age-group lookup. -/
def selectProfile (age_group : String) (conditions : List String) : HealthProfile :=
  if "asthma" ∈ conditions then asthmaProfile
  else if "heart_disease" ∈ conditions then heartDiseaseProfile
  else riskProfilesGet age_group

/-- The pollutants considered by the healthcare module. -/
inductive HPollutant
  | pm25
  | o3
  | no2
  | so2
deriving DecidableEq

/-- Domain reference denominator per pollutant (src/app7.py lines 337-338). -/
def healthDen : HPollutant → ℚ
  | .pm25 => 15
  | .o3 => 100
  | .no2 => 40
  | .so2 => 20

/-- Coefficient of a profile for a pollutant. -/
def profCoef (p : HealthProfile) : HPollutant → ℚ
  | .pm25 => p.pm25
  | .o3 => p.o3
  | .no2 => p.no2
  | .so2 => p.so2

/-- Per-pollutant risk score of the healthcare loop body
(src/app7.py line 339): `min(normalized * profile[pollutant] * 10, 10)`
where `normalized = value / den`. -/
def healthRiskScore (coefficient den value : ℚ) : ℚ :=
  min (value / den * coefficient * 10) 10

/-- Health risk level ladder (src/app7.py lines 356-362). -/
def get_health_risk_level (score : ℚ) : String :=
  if score < 2 then "Low"
  else if score < 4 then "Moderate"
  else if score < 6 then "High"
  else if score < 8 then "Very High"
  else "Hazardous"

/-- Transcription of `generate_health_recommendations`
(src/app7.py lines 364-390). -/
def generate_health_recommendations (risk_score : ℚ) (age_group : String)
    (conditions : List String) : List String :=
  let base :=
    if risk_score < 2 then
      ["Air quality is good. Normal outdoor activities are safe.",
        "Continue regular exercise routines."]
    else if risk_score < 4 then
      ["Moderate air pollution. Sensitive individuals should limit outdoor activities.",
        "Consider indoor exercise on high pollution days."]
    else if risk_score < 6 then
      ["Unhealthy air quality. Limit outdoor activities, especially vigorous exercise.",
        "Use air purifiers indoors.", "Wear N95 masks when outdoors."]
    else
      ["Hazardous air quality. Avoid outdoor activities.",
        "Stay indoors with air purification.",
        "Seek medical attention if experiencing respiratory issues."]
  let base :=
    if age_group = "child" then
      base ++ ["Keep children indoors during high pollution periods."]
    else if age_group = "elderly" then
      base ++ ["Elderly individuals should be extra cautious and monitor symptoms."]
    else base
  let base :=
    if "asthma" ∈ conditions then
      base ++ ["Keep rescue inhalers readily available."]
    else base
  if "heart_disease" ∈ conditions then
    base ++ ["Monitor heart rate and blood pressure regularly."]
  else base

/-- Per-pollutant entry of the returned `pollutant_risks` dict. -/
structure PollutantRisk where
  value : ℚ
  risk_score : ℚ
  risk_level : String
deriving DecidableEq

/-- Result record of `assess_health_risk`. -/
structure HealthRisk where
  overall_risk_score : ℚ
  overall_risk_level : String
  risk_pm25 : PollutantRisk
  risk_o3 : PollutantRisk
  risk_no2 : PollutantRisk
  risk_so2 : PollutantRisk
  recommendations : List String
  air_quality_data : AirQuality
deriving DecidableEq

/-- Transcription of `HealthcareModule.assess_health_risk`
(src/app7.py lines 319-354), with the fetched payload passed explicitly. -/
def assess_health_risk (air_data : Option Payload) (age_group : String)
    (conditions : List String) : Option HealthRisk :=
  match air_data with
  | none => none
  | some ad =>
    match ad.current with
    | none => none
    | some cur =>
      let air_quality := cur.air_quality.getD AirQuality.empty
      let profile := selectProfile age_group conditions
      let vPm := air_quality.pm2_5.getD 0
      let vO3 := air_quality.o3.getD 0
      let vNo2 := air_quality.no2.getD 0
      let vSo2 := air_quality.so2.getD 0
      let sPm := healthRiskScore (profCoef profile .pm25) (healthDen .pm25) vPm
      let sO3 := healthRiskScore (profCoef profile .o3) (healthDen .o3) vO3
      let sNo2 := healthRiskScore (profCoef profile .no2) (healthDen .no2) vNo2
      let sSo2 := healthRiskScore (profCoef profile .so2) (healthDen .so2) vSo2
      let total_risk_score := sPm + sO3 + sNo2 + sSo2
      let overall_risk := min (total_risk_score / 4) 10
      some
        { overall_risk_score := overall_risk
          overall_risk_level := get_health_risk_level overall_risk
          risk_pm25 := ⟨vPm, sPm, get_health_risk_level sPm⟩
          risk_o3 := ⟨vO3, sO3, get_health_risk_level sO3⟩
          risk_no2 := ⟨vNo2, sNo2, get_health_risk_level sNo2⟩
          risk_so2 := ⟨vSo2, sSo2, get_health_risk_level sSo2⟩
          recommendations := generate_health_recommendations overall_risk age_group conditions
          air_quality_data := air_quality }

lemma selectProfile_coef_ge_one (age_group : String) (conditions : List String)
    (p : HPollutant) : 1 ≤ profCoef (selectProfile age_group conditions) p := by
  unfold selectProfile riskProfilesGet
  unfold childProfile adultProfile elderlyProfile asthmaProfile heartDiseaseProfile
  repeat' split
  all_goals cases p <;> norm_num [profCoef]

lemma healthDen_pos (p : HPollutant) : 0 < healthDen p := by
  cases p <;> norm_num [healthDen]

lemma healthRiskScore_nonneg {coefficient den value : ℚ} (hc : 0 ≤ coefficient)
    (hd : 0 < den) (hv : 0 ≤ value) : 0 ≤ healthRiskScore coefficient den value := by
  unfold healthRiskScore
  have h1 : 0 ≤ value / den := div_nonneg hv hd.le
  have h2 : 0 ≤ value / den * coefficient * 10 := by positivity
  exact le_min h2 (by norm_num)

end HealthcareModule

namespace SmartCitiesModule

/-- The weather fields of one hourly record used by the PM2.5 estimator. -/
structure WeatherData where
  temp_c : ℚ
  humidity : ℚ
  wind_kph : ℚ
deriving DecidableEq

/-- Transcription of `SmartCitiesModule.predict_pm25`
(src/app7.py lines 272-279). -/
def predict_pm25 (weather_data : WeatherData) : ℚ :=
  let base_pm25 : ℚ := 35
  let temp_factor := max 0 ((weather_data.temp_c - 25) / 10) * 5
  let humidity_factor := (weather_data.humidity - 50) / 50 * 10
  let wind_factor := max 0 ((10 - weather_data.wind_kph) / 10) * 15
  let predicted_pm25 := base_pm25 + temp_factor + humidity_factor + wind_factor
  max 5 (min predicted_pm25 200)

end SmartCitiesModule

namespace TravelEcoTourismModule

/-- A Python runtime error escaping a scoring function. -/
inductive PyErr
  | keyError
deriving DecidableEq

/-- Result record of `optimize_low_pollution_route`. -/
structure RouteResult where
  start_city : String
  end_city : String
  start_aqi : ℤ
  end_aqi : ℤ
  route_score : ℚ
  route_status : String
  start_location : Loc
  end_location : Loc
deriving DecidableEq

/-- Transcription of `TravelEcoTourismModule.optimize_low_pollution_route`
(src/app7.py lines 423-445), with the two fetched payloads passed
explicitly. Unlike its sibling scorers, the source guards only
`if not start_data or not end_data` and then subscripts
`start_data[current][air_quality]` directly, so a payload that is present
but lacks one of those keys raises `KeyError`, modelled as `Except.error`. -/
def optimize_low_pollution_route (start_city end_city : String)
    (start_data end_data : Option Payload) : Except PyErr (Option RouteResult) :=
  match start_data, end_data with
  | none, _ => .ok none
  | _, none => .ok none
  | some sd, some ed =>
    match sd.current with
    | none => .error .keyError
    | some sc =>
      match sc.air_quality with
      | none => .error .keyError
      | some saq =>
        match ed.current with
        | none => .error .keyError
        | some ec =>
          match ec.air_quality with
          | none => .error .keyError
          | some eaq =>
            let start_aqi := calculate_aqi (saq.pm2_5.getD 0)
            let end_aqi := calculate_aqi (eaq.pm2_5.getD 0)
            let route_score : ℚ := ((start_aqi + end_aqi : ℤ) : ℚ) / 2
            let route_status :=
              if route_score < 50 then "Low Pollution"
              else if route_score < 100 then "Moderate Pollution"
              else "High Pollution"
            .ok (some
              { start_city := start_city
                end_city := end_city
                start_aqi := start_aqi
                end_aqi := end_aqi
                route_score := route_score
                route_status := route_status
                start_location := sd.location
                end_location := ed.location })

end TravelEcoTourismModule

namespace RealEstateUrbanPlanningModule

/-- Result record of `assess_site_suitability`. -/
structure SiteSuitability where
  location : String
  aqi : ℤ
  pm25 : ℚ
  suitability_score : ℚ
  suitability_level : String
  air_quality_data : AirQuality
  location_data : Loc
deriving DecidableEq

/-- Transcription of `RealEstateUrbanPlanningModule.assess_site_suitability`
(src/app7.py lines 529-550), with the fetched payload passed explicitly. -/
def assess_site_suitability (location : String) (air_data : Option Payload) :
    Option SiteSuitability :=
  match air_data with
  | none => none
  | some ad =>
    match ad.current with
    | none => none
    | some cur =>
      let air_quality := cur.air_quality.getD AirQuality.empty
      let pm25 := air_quality.pm2_5.getD 0
      let aqi := calculate_aqi pm25
      let suitability_score := max 0 (100 - (aqi : ℚ) / 3)
      let suitability_level :=
        if suitability_score > 80 then "High"
        else if suitability_score > 50 then "Moderate"
        else "Low"
      some
        { location := location
          aqi := aqi
          pm25 := pm25
          suitability_score := suitability_score
          suitability_level := suitability_level
          air_quality_data := air_quality
          location_data := ad.location }

end RealEstateUrbanPlanningModule

namespace PollutionAnalyzer

/-- The six pollutants aggregated by `process_forecast_data`
(src/app7.py line 83). -/
inductive FPollutant
  | pm2_5
  | pm10
  | o3
  | no2
  | so2
  | co
deriving DecidableEq

/-- Field access `air_quality.get(pollutant)` for a pollutant name. -/
def getPollutant (aq : AirQuality) : FPollutant → Option ℚ
  | .pm2_5 => aq.pm2_5
  | .pm10 => aq.pm10
  | .o3 => aq.o3
  | .no2 => aq.no2
  | .so2 => aq.so2
  | .co => aq.co

/-- One hourly record of a forecast day; the source subscripts
`hour[air_quality]` directly. -/
structure HourData where
  air_quality : AirQuality
deriving DecidableEq

/-- One entry of `forecast[forecastday]`. -/
structure ForecastDay where
  date : String
  hour : List HourData
deriving DecidableEq

/-- The `forecast` object of a forecast payload. -/
structure ForecastObj where
  forecastday : List ForecastDay
deriving DecidableEq

/-- A fetched forecast payload; the `forecast` section may be absent. -/
structure ForecastPayload where
  forecast : Option ForecastObj
deriving DecidableEq

/-- The hourly values kept by the list comprehension on src/app7.py line 88:
hours where the pollutant is present with a truthy (non-zero) value. -/
def qualifyingValues (p : FPollutant) (hours : List HourData) : List ℚ :=
  hours.filterMap fun h =>
    match getPollutant h.air_quality p with
    | some v => if v = 0 then none else some v
    | none => none

/-- Daily average of one pollutant (src/app7.py line 89):
`np.mean(values) if values else 0`. -/
def dailyValue (p : FPollutant) (hours : List HourData) : ℚ :=
  let values := qualifyingValues p hours
  if values = [] then 0 else values.sum / values.length

/-- One row of the returned daily DataFrame. -/
structure DailyAvg where
  date : String
  values : FPollutant → ℚ

/-- Transcription of `PollutionAnalyzer.process_forecast_data`
(src/app7.py lines 77-92). -/
def process_forecast_data (forecast_data : Option ForecastPayload) (days : Nat) :
    Option (List DailyAvg) :=
  match forecast_data with
  | none => none
  | some fd =>
    match fd.forecast with
    | none => none
    | some f =>
      some ((f.forecastday.take days).map fun day =>
        { date := day.date, values := fun p => dailyValue p day.hour })

end PollutionAnalyzer

/-- C2: when a fetched payload is present but its required `current` section
is absent, the three guarded scorers return the no-result signal `none`,
while `optimize_low_pollution_route` raises a `KeyError` (it only guards
`if not start_data or not end_data` before subscripting
`start_data[current]` directly), contradicting the specified no-result
behaviour. -/
theorem c2_missing_current_section :
    ∀ (loc : Loc) (q : Payload) (crop_type age_group : String)
      (conditions : List String) (s e : String),
      AgricultureModule.predict_crop_impact (some ⟨none, loc⟩) crop_type = none ∧
        HealthcareModule.assess_health_risk (some ⟨none, loc⟩) age_group conditions = none ∧
        RealEstateUrbanPlanningModule.assess_site_suitability s (some ⟨none, loc⟩) = none ∧
        TravelEcoTourismModule.optimize_low_pollution_route s e (some ⟨none, loc⟩) (some q) =
          Except.error TravelEcoTourismModule.PyErr.keyError :=
  fun _ _ _ _ _ _ _ => ⟨rfl, rfl, rfl, rfl⟩

/-- C5: clip idempotence. In the agriculture loop, once the normalized ratio
exceeds 3.0 the per-pollutant contribution equals the contribution computed
at ratio exactly 3.0. In the healthcare loop, the same holds for every
profile selected by `selectProfile`, because every profile coefficient is
at least 1 and the per-pollutant score is clipped at 10. -/
theorem c5_clip_idempotence :
    (∀ coefficient den value : ℚ, 0 < den → 3 < value / den →
        AgricultureModule.agriContribution coefficient den value =
          AgricultureModule.agriContribution coefficient den (3 * den)) ∧
      ∀ (age_group : String) (conditions : List String)
        (p : HealthcareModule.HPollutant) (value : ℚ),
        3 < value / HealthcareModule.healthDen p →
        HealthcareModule.healthRiskScore
            (HealthcareModule.profCoef (HealthcareModule.selectProfile age_group conditions) p)
            (HealthcareModule.healthDen p) value =
          HealthcareModule.healthRiskScore
            (HealthcareModule.profCoef (HealthcareModule.selectProfile age_group conditions) p)
            (HealthcareModule.healthDen p) (3 * HealthcareModule.healthDen p) := by
  constructor
  · intro coefficient den value hden h
    have h1 : min (value / den) 3 = 3 := min_eq_right (le_of_lt h)
    have h2 : 3 * den / den = 3 := mul_div_cancel_right₀ 3 (ne_of_gt hden)
    simp only [AgricultureModule.agriContribution]
    rw [h1, h2, min_self]
  · intro age_group conditions p value h
    have hc := HealthcareModule.selectProfile_coef_ge_one age_group conditions p
    have hden := HealthcareModule.healthDen_pos p
    set c := HealthcareModule.profCoef
      (HealthcareModule.selectProfile age_group conditions) p with hcdef
    have h2 : 3 * HealthcareModule.healthDen p / HealthcareModule.healthDen p = 3 :=
      mul_div_cancel_right₀ 3 (ne_of_gt hden)
    have hprod : 3 * 1 ≤ value / HealthcareModule.healthDen p * c :=
      mul_le_mul (le_of_lt h) hc (by norm_num)
        (le_trans (by norm_num) (le_of_lt h))
    simp only [HealthcareModule.healthRiskScore]
    rw [h2]
    rw [min_eq_right (by linarith), min_eq_right (by linarith)]

/-- C5 witness: the clip-idempotence theorem applied at concrete inputs:
agriculture coefficient 0.12 with denominator 100 at concentration 301
(ratio 3.01), and the adult profile PM2.5 score at concentration 100
(ratio 100/15). -/
theorem c5_clip_idempotence_witness :
    ((0 : ℚ) < 100 ∧ (3 : ℚ) < 301 / 100 ∧
        AgricultureModule.agriContribution 0.12 100 301 =
          AgricultureModule.agriContribution 0.12 100 (3 * 100)) ∧
      (3 : ℚ) < 100 / HealthcareModule.healthDen HealthcareModule.HPollutant.pm25 ∧
        HealthcareModule.healthRiskScore
            (HealthcareModule.profCoef (HealthcareModule.selectProfile "adult" [])
              HealthcareModule.HPollutant.pm25)
            (HealthcareModule.healthDen HealthcareModule.HPollutant.pm25) 100 =
          HealthcareModule.healthRiskScore
            (HealthcareModule.profCoef (HealthcareModule.selectProfile "adult" [])
              HealthcareModule.HPollutant.pm25)
            (HealthcareModule.healthDen HealthcareModule.HPollutant.pm25)
            (3 * HealthcareModule.healthDen HealthcareModule.HPollutant.pm25) := by
  refine ⟨⟨by norm_num, by norm_num, ?_⟩, ⟨?_, ?_⟩⟩
  · exact c5_clip_idempotence.1 0.12 100 301 (by norm_num) (by norm_num)
  · norm_num [HealthcareModule.healthDen]
  · exact c5_clip_idempotence.2 "adult" [] HealthcareModule.HPollutant.pm25 100
      (by norm_num [HealthcareModule.healthDen])

/-- C8: the PM2.5 estimator returns exactly the specified heuristic formula,
base 35 plus temperature, humidity and wind factors, clamped into [5, 200]. -/
theorem c8_pm25_estimator_formula :
    ∀ weather_data : SmartCitiesModule.WeatherData,
      SmartCitiesModule.predict_pm25 weather_data =
          max 5 (min (35 + max 0 ((weather_data.temp_c - 25) / 10) * 5 +
            (weather_data.humidity - 50) / 50 * 10 +
            max 0 ((10 - weather_data.wind_kph) / 10) * 15) 200) ∧
        5 ≤ SmartCitiesModule.predict_pm25 weather_data ∧
        SmartCitiesModule.predict_pm25 weather_data ≤ 200 := by
  intro weather_data
  refine ⟨rfl, ?_, ?_⟩
  · simp only [SmartCitiesModule.predict_pm25]
    exact le_max_left _ _
  · simp only [SmartCitiesModule.predict_pm25]
    exact max_le (by norm_num) (min_le_right _ _)

/-- C6: profile-lookup fallback. An unrecognized crop type such as durian
falls back to the wheat sensitivity profile and yields exactly the same
result as an explicit wheat request; an unknown age group with no flagged
condition uses the adult profile; a conditions list containing asthma
(or else heart_disease) overrides the age-group profile. -/
theorem c6_profile_lookup_fallback :
    (∀ air_data : Option Payload,
        AgricultureModule.predict_crop_impact air_data "durian" =
          AgricultureModule.predict_crop_impact air_data "wheat") ∧
      (∀ (air_data : Option Payload) (age_group : String) (conditions : List String),
        age_group ∉ ["child", "adult", "elderly", "asthma", "heart_disease"] →
        "asthma" ∉ conditions → "heart_disease" ∉ conditions →
        HealthcareModule.assess_health_risk air_data age_group conditions =
          HealthcareModule.assess_health_risk air_data "adult" conditions) ∧
      (∀ (age_group : String) (conditions : List String), "asthma" ∈ conditions →
        HealthcareModule.selectProfile age_group conditions =
          HealthcareModule.asthmaProfile) ∧
      ∀ (age_group : String) (conditions : List String), "asthma" ∉ conditions →
        "heart_disease" ∈ conditions →
        HealthcareModule.selectProfile age_group conditions =
          HealthcareModule.heartDiseaseProfile := by
  refine ⟨?_, ?_, ?_, ?_⟩
  · intro air_data
    have hsens : AgricultureModule.cropSensitivityGet (pyLower "durian") =
        AgricultureModule.cropSensitivityGet (pyLower "wheat") := by
      rw [show pyLower "durian" = "durian" by decide,
        show pyLower "wheat" = "wheat" by decide]
      rfl
    rcases air_data with _ | ⟨_ | cur, loc⟩
    · rfl
    · rfl
    · simp only [AgricultureModule.predict_crop_impact, hsens]
  · intro air_data age_group conditions hage hasthma hheart
    have h5 : age_group ≠ "child" ∧ age_group ≠ "adult" ∧ age_group ≠ "elderly" ∧
        age_group ≠ "asthma" ∧ age_group ≠ "heart_disease" := by
      simp only [List.mem_cons, List.mem_singleton] at hage
      push_neg at hage
      exact ⟨hage.1, hage.2.1, hage.2.2.1, hage.2.2.2.1, hage.2.2.2.2.1⟩
    have hsel : HealthcareModule.selectProfile age_group conditions =
        HealthcareModule.selectProfile "adult" conditions := by
      simp only [HealthcareModule.selectProfile, if_neg hasthma, if_neg hheart]
      unfold HealthcareModule.riskProfilesGet
      rw [if_neg h5.1, if_neg h5.2.1, if_neg h5.2.2.1, if_neg h5.2.2.2.1,
        if_neg h5.2.2.2.2]
      simp
    have hrec : ∀ r : ℚ,
        HealthcareModule.generate_health_recommendations r age_group conditions =
          HealthcareModule.generate_health_recommendations r "adult" conditions := by
      intro r
      unfold HealthcareModule.generate_health_recommendations
      simp only [if_neg h5.1, if_neg h5.2.2.1]
      simp
    rcases air_data with _ | ⟨_ | cur, loc⟩
    · rfl
    · rfl
    · simp only [HealthcareModule.assess_health_risk, hsel, hrec]
  · intro age_group conditions h
    unfold HealthcareModule.selectProfile
    rw [if_pos h]
  · intro age_group conditions h1 h2
    unfold HealthcareModule.selectProfile
    rw [if_neg h1, if_pos h2]

/-- C6 witness: the fallback theorem applied at the unknown age group
farmer with the unflagged condition diabetes, and the asthma override
applied for a child. -/
theorem c6_profile_lookup_fallback_witness :
    (("farmer" : String) ∉ ["child", "adult", "elderly", "asthma", "heart_disease"] ∧
        ("asthma" : String) ∉ (["diabetes"] : List String) ∧
        ("heart_disease" : String) ∉ (["diabetes"] : List String) ∧
        HealthcareModule.assess_health_risk (some ⟨some ⟨none⟩, "L"⟩) "farmer" ["diabetes"] =
          HealthcareModule.assess_health_risk (some ⟨some ⟨none⟩, "L"⟩) "adult" ["diabetes"]) ∧
      ("asthma" : String) ∈ (["asthma"] : List String) ∧
        HealthcareModule.selectProfile "child" ["asthma"] = HealthcareModule.asthmaProfile := by
  refine ⟨⟨by decide, by decide, by decide, ?_⟩, by decide, ?_⟩
  · exact c6_profile_lookup_fallback.2.1 (some ⟨some ⟨none⟩, "L"⟩) "farmer" ["diabetes"]
      (by decide) (by decide) (by decide)
  · exact c6_profile_lookup_fallback.2.2.1 "child" ["asthma"] (by decide)

namespace PollutionAnalyzer

/-- The claim-side description of the qualifying hourly values: the values
of exactly those hours where the pollutant is present and non-zero. -/
def claimQualifying (p : FPollutant) (hours : List HourData) : List ℚ :=
  ((hours.map fun h => getPollutant h.air_quality p).reduceOption).filter fun v => v ≠ 0

/-- The claim-side daily value: the arithmetic mean of the qualifying
values, or 0 when no hour qualifies. -/
def claimDailyMean (p : FPollutant) (hours : List HourData) : ℚ :=
  let vs := claimQualifying p hours
  if vs = [] then 0 else vs.sum / vs.length

lemma qualifyingValues_eq_claim (p : FPollutant) (hours : List HourData) :
    qualifyingValues p hours = claimQualifying p hours := by
  induction hours with
  | nil => rfl
  | cons h t ih =>
    cases hv : getPollutant h.air_quality p with
    | none => simpa [qualifyingValues, claimQualifying, hv] using ih
    | some v =>
      by_cases hz : v = 0
      · simpa [qualifyingValues, claimQualifying, hv, hz] using ih
      · simpa [qualifyingValues, claimQualifying, hv, hz] using ih

lemma dailyValue_eq_claim (p : FPollutant) (hours : List HourData) :
    dailyValue p hours = claimDailyMean p hours := by
  unfold dailyValue claimDailyMean
  rw [qualifyingValues_eq_claim]

end PollutionAnalyzer

/-- C7: the forecast aggregator returns one entry per forecast day, capped
at `days` entries, preserving the input chronological order; the daily
value of each pollutant is the arithmetic mean over exactly the hours
where that pollutant is present with a non-zero value, and a day with no
qualifying hours (including an empty hourly list) yields 0. -/
theorem c7_forecast_daily_aggregation :
    ∀ (f : PollutionAnalyzer.ForecastObj) (days : Nat),
      PollutionAnalyzer.process_forecast_data (some ⟨some f⟩) days =
          some ((f.forecastday.take days).map fun day =>
            { date := day.date
              values := fun p => PollutionAnalyzer.claimDailyMean p day.hour }) ∧
        ((f.forecastday.take days).map fun day =>
            ({ date := day.date
               values := fun p =>
                 PollutionAnalyzer.claimDailyMean p day.hour } :
              PollutionAnalyzer.DailyAvg)).length = min days f.forecastday.length ∧
        (∀ p : PollutionAnalyzer.FPollutant, PollutionAnalyzer.dailyValue p [] = 0) ∧
        PollutionAnalyzer.process_forecast_data none days = none := by
  intro f days
  refine ⟨?_, ?_, ?_, rfl⟩
  · simp only [PollutionAnalyzer.process_forecast_data,
      PollutionAnalyzer.dailyValue_eq_claim]
  · simp [List.length_take]
  · intro p
    rfl

/-- C4: for every reading with non-negative pollutant concentrations the
domain scores are bounded: the agriculture total yield loss lies in [0, 50],
the healthcare overall risk score in [0, 10], and the real-estate
suitability score in [0, 100]. -/
theorem c4_domain_scores_bounded :
    (∀ (cur : Current) (loc : Loc) (crop_type : String),
        (cur.air_quality.getD AirQuality.empty).Nonneg →
        ∀ r, AgricultureModule.predict_crop_impact (some ⟨some cur, loc⟩) crop_type =
            some r →
          0 ≤ r.total_yield_loss ∧ r.total_yield_loss ≤ 50) ∧
      (∀ (cur : Current) (loc : Loc) (age_group : String) (conditions : List String),
        (cur.air_quality.getD AirQuality.empty).Nonneg →
        ∀ r, HealthcareModule.assess_health_risk (some ⟨some cur, loc⟩) age_group
            conditions = some r →
          0 ≤ r.overall_risk_score ∧ r.overall_risk_score ≤ 10) ∧
      ∀ (location : String) (cur : Current) (loc : Loc),
        (cur.air_quality.getD AirQuality.empty).Nonneg →
        ∀ r, RealEstateUrbanPlanningModule.assess_site_suitability location
            (some ⟨some cur, loc⟩) = some r →
          0 ≤ r.suitability_score ∧ r.suitability_score ≤ 100 := by
  refine ⟨?_, ?_, ?_⟩
  · intro cur loc crop_type hnn r hr
    obtain ⟨h1, h2, h3, h4, h5, h6⟩ := hnn
    simp only [AgricultureModule.predict_crop_impact, Option.some.injEq] at hr
    subst hr
    have hp := AgricultureModule.cropProfile_nonneg (pyLower crop_type)
    have c1 := AgricultureModule.agriContribution_nonneg hp.1
      (show (0:ℚ) < 100 by norm_num) h3
    have c2 := AgricultureModule.agriContribution_nonneg hp.2.1
      (show (0:ℚ) < 20 by norm_num) h5
    have c3 := AgricultureModule.agriContribution_nonneg hp.2.2.1
      (show (0:ℚ) < 40 by norm_num) h4
    have c4 := AgricultureModule.agriContribution_nonneg hp.2.2.2
      (show (0:ℚ) < 15 by norm_num) h1
    exact ⟨le_min (by linarith) (by norm_num), min_le_right _ _⟩
  · intro cur loc age_group conditions hnn r hr
    obtain ⟨h1, h2, h3, h4, h5, h6⟩ := hnn
    simp only [HealthcareModule.assess_health_risk, Option.some.injEq] at hr
    subst hr
    have hc : ∀ p, 0 ≤ HealthcareModule.profCoef
        (HealthcareModule.selectProfile age_group conditions) p :=
      fun p => le_trans zero_le_one
        (HealthcareModule.selectProfile_coef_ge_one age_group conditions p)
    have s1 := HealthcareModule.healthRiskScore_nonneg (hc .pm25)
      (HealthcareModule.healthDen_pos .pm25) h1
    have s2 := HealthcareModule.healthRiskScore_nonneg (hc .o3)
      (HealthcareModule.healthDen_pos .o3) h3
    have s3 := HealthcareModule.healthRiskScore_nonneg (hc .no2)
      (HealthcareModule.healthDen_pos .no2) h4
    have s4 := HealthcareModule.healthRiskScore_nonneg (hc .so2)
      (HealthcareModule.healthDen_pos .so2) h5
    refine ⟨le_min (by positivity) (by norm_num), min_le_right _ _⟩
  · intro location cur loc hnn r hr
    obtain ⟨h1, -, -, -, -, -⟩ := hnn
    simp only [RealEstateUrbanPlanningModule.assess_site_suitability,
      Option.some.injEq] at hr
    subst hr
    have hb := SmartCitiesModule.aqi_bounds h1
    rw [← realestate_aqi_eq_smart] at hb
    have hcast : (0:ℚ) ≤ ((RealEstateUrbanPlanningModule.calculate_aqi
        ((cur.air_quality.getD AirQuality.empty).pm2_5.getD 0) : ℤ) : ℚ) := by
      exact_mod_cast hb.1
    exact ⟨le_max_left _ _, max_le (by norm_num) (by linarith)⟩

/-- Concrete agriculture result used by the C4 witness: the all-zero
reading scored for wheat. -/
def c4WitnessCrop : AgricultureModule.CropImpact :=
  ⟨0, ⟨0, 0, "Low"⟩, ⟨0, 0, "Low"⟩, ⟨0, 0, "Low"⟩, ⟨0, 0, "Low"⟩, AirQuality.empty, "L"⟩

/-- Concrete healthcare result used by the C4 witness: the all-zero reading
assessed for an adult with no conditions. -/
def c4WitnessHealth : HealthcareModule.HealthRisk :=
  ⟨0, "Low", ⟨0, 0, "Low"⟩, ⟨0, 0, "Low"⟩, ⟨0, 0, "Low"⟩, ⟨0, 0, "Low"⟩,
    ["Air quality is good. Normal outdoor activities are safe.",
      "Continue regular exercise routines."], AirQuality.empty⟩

/-- Concrete real-estate result used by the C4 witness: the all-zero
reading gives AQI 0 and suitability 100. -/
def c4WitnessSite : RealEstateUrbanPlanningModule.SiteSuitability :=
  ⟨"M", 0, 0, 100, "High", AirQuality.empty, "L"⟩

lemma c4_witness_crop_eq :
    AgricultureModule.predict_crop_impact (some ⟨some ⟨none⟩, "L"⟩) "wheat" =
      some c4WitnessCrop := by
  simp only [AgricultureModule.predict_crop_impact]
  rw [show pyLower "wheat" = "wheat" from by decide]
  norm_num [AgricultureModule.cropSensitivityGet, AgricultureModule.wheatProfile,
    AgricultureModule.agriContribution, AgricultureModule.get_risk_level,
    AirQuality.empty, c4WitnessCrop, min_def]

lemma c4_witness_health_eq :
    HealthcareModule.assess_health_risk (some ⟨some ⟨none⟩, "L"⟩) "adult" [] =
      some c4WitnessHealth := by
  norm_num [HealthcareModule.assess_health_risk, HealthcareModule.selectProfile,
    HealthcareModule.riskProfilesGet, HealthcareModule.adultProfile,
    HealthcareModule.healthRiskScore, HealthcareModule.profCoef,
    HealthcareModule.healthDen, HealthcareModule.get_health_risk_level,
    HealthcareModule.generate_health_recommendations, AirQuality.empty,
    c4WitnessHealth, min_def]
  simp

lemma c4_witness_site_eq :
    RealEstateUrbanPlanningModule.assess_site_suitability "M"
      (some ⟨some ⟨none⟩, "L"⟩) = some c4WitnessSite := by
  norm_num [RealEstateUrbanPlanningModule.assess_site_suitability,
    RealEstateUrbanPlanningModule.calculate_aqi, pyInt, AirQuality.empty,
    c4WitnessSite, min_def, max_def]

/-- C4 witness: the bound theorem applied to the concrete all-zero reading
in all three domains. -/
theorem c4_domain_scores_bounded_witness :
    ((⟨none⟩ : Current).air_quality.getD AirQuality.empty).Nonneg ∧
      (0 ≤ c4WitnessCrop.total_yield_loss ∧ c4WitnessCrop.total_yield_loss ≤ 50) ∧
      (0 ≤ c4WitnessHealth.overall_risk_score ∧
        c4WitnessHealth.overall_risk_score ≤ 10) ∧
      (0 ≤ c4WitnessSite.suitability_score ∧ c4WitnessSite.suitability_score ≤ 100) := by
  have hnn : ((⟨none⟩ : Current).air_quality.getD AirQuality.empty).Nonneg := by
    norm_num [AirQuality.Nonneg, AirQuality.empty]
  refine ⟨hnn, ?_, ?_, ?_⟩
  · exact c4_domain_scores_bounded.1 ⟨none⟩ "L" "wheat" hnn c4WitnessCrop
      c4_witness_crop_eq
  · exact c4_domain_scores_bounded.2.1 ⟨none⟩ "L" "adult" [] hnn c4WitnessHealth
      c4_witness_health_eq
  · exact c4_domain_scores_bounded.2.2 "M" ⟨none⟩ "L" hnn c4WitnessSite
      c4_witness_site_eq

/-- C9: for non-negative PM2.5 input the real-estate suitability score
equals max(0, 100 - AQI/3) with the High/Moderate/Low label ladder, and
the travel route score equals the arithmetic mean of the two endpoint
AQIs with the Low/Moderate/High Pollution status ladder. -/
theorem c9_suitability_and_route_scores :
    (∀ (location : String) (cur : Current) (loc : Loc),
        0 ≤ (cur.air_quality.getD AirQuality.empty).pm2_5.getD 0 →
        ∀ r, RealEstateUrbanPlanningModule.assess_site_suitability location
            (some ⟨some cur, loc⟩) = some r →
          r.suitability_score = max 0 (100 -
              ((RealEstateUrbanPlanningModule.calculate_aqi
                ((cur.air_quality.getD AirQuality.empty).pm2_5.getD 0) : ℤ) : ℚ) / 3) ∧
            (80 < r.suitability_score → r.suitability_level = "High") ∧
            (50 < r.suitability_score → r.suitability_score ≤ 80 →
              r.suitability_level = "Moderate") ∧
            (r.suitability_score ≤ 50 → r.suitability_level = "Low")) ∧
      ∀ (s e : String) (saq eaq : AirQuality) (sl el : Loc),
        0 ≤ saq.pm2_5.getD 0 → 0 ≤ eaq.pm2_5.getD 0 →
        ∀ r, TravelEcoTourismModule.optimize_low_pollution_route s e
            (some ⟨some ⟨some saq⟩, sl⟩) (some ⟨some ⟨some eaq⟩, el⟩) =
              Except.ok (some r) →
          r.route_score = ((TravelEcoTourismModule.calculate_aqi (saq.pm2_5.getD 0) +
              TravelEcoTourismModule.calculate_aqi (eaq.pm2_5.getD 0) : ℤ) : ℚ) / 2 ∧
            (r.route_score < 50 → r.route_status = "Low Pollution") ∧
            (50 ≤ r.route_score → r.route_score < 100 →
              r.route_status = "Moderate Pollution") ∧
            (100 ≤ r.route_score → r.route_status = "High Pollution") := by
  constructor
  · intro location cur loc hpm r hr
    simp only [RealEstateUrbanPlanningModule.assess_site_suitability,
      Option.some.injEq] at hr
    subst hr
    refine ⟨rfl, ?_, ?_, ?_⟩
    · intro h
      exact if_pos h
    · intro h1 h2
      show (if _ > 80 then "High" else if _ > 50 then "Moderate" else "Low") = _
      rw [if_neg (not_lt.mpr h2), if_pos h1]
    · intro h
      show (if _ > 80 then "High" else if _ > 50 then "Moderate" else "Low") = _
      rw [if_neg (not_lt.mpr (le_trans h (by norm_num))), if_neg (not_lt.mpr h)]
  · intro s e saq eaq sl el hs he r hr
    simp only [TravelEcoTourismModule.optimize_low_pollution_route, Except.ok.injEq,
      Option.some.injEq] at hr
    subst hr
    refine ⟨rfl, ?_, ?_, ?_⟩
    · intro h
      exact if_pos h
    · intro h1 h2
      show (if _ < 50 then "Low Pollution"
        else if _ < 100 then "Moderate Pollution" else "High Pollution") = _
      rw [if_neg (not_lt.mpr h1), if_pos h2]
    · intro h
      show (if _ < 50 then "Low Pollution"
        else if _ < 100 then "Moderate Pollution" else "High Pollution") = _
      rw [if_neg (not_lt.mpr (le_trans (by norm_num) h)), if_neg (not_lt.mpr h)]

/-- Concrete real-estate result used by the C9 witness. -/
def c9WitnessSite : RealEstateUrbanPlanningModule.SiteSuitability :=
  ⟨"Mum", 0, 0, 100, "High", AirQuality.empty, "L1"⟩

/-- Concrete route result used by the C9 witness. -/
def c9WitnessRoute : TravelEcoTourismModule.RouteResult :=
  ⟨"a", "b", 0, 0, 0, "Low Pollution", "L1", "L2"⟩

lemma c9_witness_site_eq :
    RealEstateUrbanPlanningModule.assess_site_suitability "Mum"
      (some ⟨some ⟨none⟩, "L1"⟩) = some c9WitnessSite := by
  norm_num [RealEstateUrbanPlanningModule.assess_site_suitability,
    RealEstateUrbanPlanningModule.calculate_aqi, pyInt, AirQuality.empty,
    c9WitnessSite, min_def, max_def]

lemma c9_witness_route_eq :
    TravelEcoTourismModule.optimize_low_pollution_route "a" "b"
        (some ⟨some ⟨some AirQuality.empty⟩, "L1"⟩)
        (some ⟨some ⟨some AirQuality.empty⟩, "L2"⟩) =
      Except.ok (some c9WitnessRoute) := by
  norm_num [TravelEcoTourismModule.optimize_low_pollution_route,
    TravelEcoTourismModule.calculate_aqi, pyInt, AirQuality.empty,
    c9WitnessRoute, min_def]

/-- C9 witness: the score theorem applied at the all-zero reading, giving
suitability 100 labelled High and route score 0 labelled Low Pollution. -/
theorem c9_suitability_and_route_witness :
    ((0 : ℚ) ≤ ((⟨none⟩ : Current).air_quality.getD AirQuality.empty).pm2_5.getD 0 ∧
        c9WitnessSite.suitability_level = "High") ∧
      (0 : ℚ) ≤ AirQuality.empty.pm2_5.getD 0 ∧
        c9WitnessRoute.route_score =
          ((TravelEcoTourismModule.calculate_aqi (AirQuality.empty.pm2_5.getD 0) +
            TravelEcoTourismModule.calculate_aqi (AirQuality.empty.pm2_5.getD 0) : ℤ) : ℚ) / 2 ∧
        c9WitnessRoute.route_status = "Low Pollution" := by
  have h0 : (0 : ℚ) ≤ ((⟨none⟩ : Current).air_quality.getD AirQuality.empty).pm2_5.getD 0 := by
    norm_num [AirQuality.empty]
  have h0e : (0 : ℚ) ≤ AirQuality.empty.pm2_5.getD 0 := by
    norm_num [AirQuality.empty]
  have hsite := c9_suitability_and_route_scores.1 "Mum" ⟨none⟩ "L1" h0 c9WitnessSite
    c9_witness_site_eq
  have hroute := c9_suitability_and_route_scores.2 "a" "b" AirQuality.empty
    AirQuality.empty "L1" "L2" h0e h0e c9WitnessRoute c9_witness_route_eq
  exact ⟨⟨h0, hsite.2.1 (by norm_num [c9WitnessSite])⟩, h0e, hroute.1,
    hroute.2.1 (by norm_num [c9WitnessRoute])⟩
